import Mathlib

/-!
Shallow embedding of the payment and billing core of the
sistema-cobro-agua repository (src/src/models_pagos.py,
src/src/models_boletas.py, src/src/services/generacion_service.py and
the staff payment routes in src/web/routes/boletas.py), together with
proofs of the specified properties of the allocation engine, the
payment lifecycle and the consumption calculator.

Conventions of the embedding:
* monetary amounts (Python `Decimal`) are rational numbers `ℚ`;
* database tables are lists of rows; `fetchone` on a filtered query is
  `List.find?`, `fetchall` is `List.filter`, SQL `UPDATE ... WHERE` is a
  `List.map` guarded by the row predicate, a SQL `ORDER BY` is a stable
  insertion sort by the quoted key, and `COUNT(*)` over a join is the
  length of the corresponding nested filter;
* dates (`CURRENT_DATE`, `fecha_pago`, ...) are opaque `Nat` codes
  passed in by the caller; fresh row ids come from explicit counters in
  the database state, mirroring the sequences behind `RETURNING id`.
-/

namespace SistemaCobroAgua

/-- A row of the `boletas` table: the columns read or written by the
payment and generation code. `pagada` is the cached settlement state:
0 = pendiente, 1 = en revisión, 2 = pagada. -/
structure Boleta where
  id : Nat
  medidor_id : Nat
  periodo_anio : Int
  periodo_mes : Int
  consumo_m3 : Int
  total : ℚ
  monto_pagado : ℚ
  saldo_pendiente : ℚ
  pagada : Nat
  comprobante_path : Option String
  fecha_pago : Option Nat
  metodo_pago : Option String
  deriving DecidableEq, Repr

/-- A row of the `pagos` table. `estado` is one of the strings
`"pendiente"`, `"en_revision"`, `"aprobado"`, `"rechazado"`. -/
structure Pago where
  id : Nat
  numero_pago : String
  cliente_id : Nat
  monto_total : ℚ
  monto_aplicado : ℚ
  monto_a_favor : ℚ
  comprobante_path : Option String
  metodo_pago : String
  estado : String
  fecha_pago : Nat
  fecha_envio : Nat
  fecha_procesamiento : Option Nat
  procesado_por : Option Nat
  motivo_rechazo : Option String
  notas : Option String
  deriving DecidableEq, Repr

/-- A row of the `pago_boletas` join table (one allocation of part of a
payment to one bill). -/
structure PagoBoleta where
  pago_id : Nat
  boleta_id : Nat
  monto_aplicado : ℚ
  es_pago_completo : Bool
  deriving DecidableEq, Repr

/-- A row of the `saldos_cliente` table (materialized credit balance). -/
structure SaldoCliente where
  cliente_id : Nat
  saldo_disponible : ℚ
  deriving DecidableEq, Repr

/-- A row of the `movimientos_saldo` table (append-only movement log). -/
structure MovimientoSaldo where
  id : Nat
  cliente_id : Nat
  tipo : String
  origen : String
  pago_id : Option Nat
  boleta_id : Option Nat
  monto : ℚ
  saldo_anterior : ℚ
  saldo_nuevo : ℚ
  descripcion : Option String
  usuario_id : Option Nat
  deriving DecidableEq, Repr

/-- A row of the `lecturas` table (meter readings). -/
structure Lectura where
  id : Nat
  medidor_id : Nat
  lectura_m3 : Int
  anio : Int
  mes : Int
  deriving DecidableEq, Repr

/-- The database state touched by the payment and generation code. -/
structure DB where
  boletas : List Boleta
  pagos : List Pago
  pago_boletas : List PagoBoleta
  saldos_cliente : List SaldoCliente
  movimientos_saldo : List MovimientoSaldo
  lecturas : List Lectura
  next_pago_id : Nat
  next_movimiento_id : Nat
  deriving DecidableEq, Repr

/-- `obtener_saldo_cliente` (models_pagos.py lines 39-52): current
credit balance of a customer, `0` when there is no row. -/
def obtener_saldo_cliente (db : DB) (cliente_id : Nat) : ℚ :=
  match db.saldos_cliente.find? (fun s => s.cliente_id == cliente_id) with
  | some s => s.saldo_disponible
  | none => 0

/-- `actualizar_saldo_cliente` (models_pagos.py lines 55-74): upsert of
the materialized balance (INSERT ... ON CONFLICT DO UPDATE). -/
def actualizar_saldo_cliente (db : DB) (cliente_id : Nat) (nuevo_saldo : ℚ) : DB :=
  if db.saldos_cliente.any (fun s => s.cliente_id == cliente_id) then
    { db with saldos_cliente := db.saldos_cliente.map (fun s =>
        if s.cliente_id == cliente_id then { s with saldo_disponible := nuevo_saldo } else s) }
  else
    { db with saldos_cliente := db.saldos_cliente ++ [⟨cliente_id, nuevo_saldo⟩] }

/-- `registrar_movimiento_saldo` (models_pagos.py lines 77-124): append
a movement row with before/after snapshot and update the materialized
balance. Returns the new movement id and the new state. -/
def registrar_movimiento_saldo (db : DB) (cliente_id : Nat) (tipo origen : String)
    (monto : ℚ) (descripcion : Option String) (pago_id boleta_id usuario_id : Option Nat) :
    Nat × DB :=
  let saldo_anterior := obtener_saldo_cliente db cliente_id
  let saldo_nuevo := saldo_anterior + monto
  let movimiento_id := db.next_movimiento_id
  let fila : MovimientoSaldo :=
    ⟨movimiento_id, cliente_id, tipo, origen, pago_id, boleta_id, monto,
     saldo_anterior, saldo_nuevo, descripcion, usuario_id⟩
  let db₁ := { db with movimientos_saldo := db.movimientos_saldo ++ [fila],
                       next_movimiento_id := movimiento_id + 1 }
  (movimiento_id, actualizar_saldo_cliente db₁ cliente_id saldo_nuevo)

/-- The `ORDER BY periodo_año ASC, periodo_mes ASC` key of the
allocation query in `_aplicar_pago_a_boletas` (models_pagos.py line
234). -/
def periodoLe (a b : Boleta) : Prop :=
  a.periodo_anio < b.periodo_anio ∨
    (a.periodo_anio = b.periodo_anio ∧ a.periodo_mes ≤ b.periodo_mes)

instance : DecidableRel periodoLe := fun a b => by
  unfold periodoLe; infer_instance

instance : IsTotal Boleta periodoLe := ⟨by intro a b; unfold periodoLe; omega⟩

instance : IsTrans Boleta periodoLe := ⟨by intro a b c; unfold periodoLe; omega⟩

/-- One entry of the `detalles` list built by `_aplicar_pago_a_boletas`
(models_pagos.py lines 256-260). -/
structure Detalle where
  boleta_id : Nat
  monto_aplicado : ℚ
  es_completo : Bool
  deriving DecidableEq, Repr

/-- The state accumulated by the `for boleta in boletas_ordenadas` loop
of `_aplicar_pago_a_boletas`: the `pago_boletas` rows inserted so far,
`monto_restante`, `monto_aplicado_total`, `boletas_afectadas` and
`detalles`. -/
structure EstadoAplicacion where
  filas : List PagoBoleta
  monto_restante : ℚ
  monto_aplicado_total : ℚ
  boletas_afectadas : List Nat
  detalles : List Detalle
  deriving DecidableEq, Repr

/-- The loop of `_aplicar_pago_a_boletas` (models_pagos.py lines
238-260): walk the ordered bills, apply
`min(monto_restante, saldo_pendiente)` to each, record one
`pago_boletas` row per applied bill, and break once `monto_restante`
drops to `0`. -/
def aplicarLoop (pago_id : Nat) : ℚ → List Boleta → EstadoAplicacion
  | monto_restante, [] => ⟨[], monto_restante, 0, [], []⟩
  | monto_restante, boleta :: resto =>
    if monto_restante ≤ 0 then ⟨[], monto_restante, 0, [], []⟩
    else
      let saldo_boleta := boleta.saldo_pendiente
      let monto_aplicar := min monto_restante saldo_boleta
      let es_completo := decide (saldo_boleta ≤ monto_aplicar)
      let r := aplicarLoop pago_id (monto_restante - monto_aplicar) resto
      ⟨⟨pago_id, boleta.id, monto_aplicar, es_completo⟩ :: r.filas,
       r.monto_restante,
       monto_aplicar + r.monto_aplicado_total,
       boleta.id :: r.boletas_afectadas,
       ⟨boleta.id, monto_aplicar, es_completo⟩ :: r.detalles⟩

/-- The rows returned by the allocation query of
`_aplicar_pago_a_boletas` (models_pagos.py lines 230-236):
`WHERE id = ANY(boletas_ids) AND saldo_pendiente > 0
 ORDER BY periodo_año ASC, periodo_mes ASC`. -/
def boletasElegibles (db : DB) (boletas_ids : List Nat) : List Boleta :=
  List.insertionSort periodoLe
    (db.boletas.filter (fun b => boletas_ids.contains b.id && decide (0 < b.saldo_pendiente)))

/-- The result dict of `_aplicar_pago_a_boletas` (models_pagos.py lines
265-271), extended with `filas`, the `pago_boletas` rows the function
INSERTs through its cursor. -/
structure ResultadoAplicacion where
  monto_aplicado : ℚ
  saldo_generado : ℚ
  saldo_usado : ℚ
  boletas_afectadas : List Nat
  detalles : List Detalle
  filas : List PagoBoleta
  deriving DecidableEq, Repr

/-- `_aplicar_pago_a_boletas` (models_pagos.py lines 214-271):
distribute `monto_disponible` over the eligible target bills, oldest
period first; any remainder becomes `saldo_generado`. -/
def _aplicar_pago_a_boletas (db : DB) (pago_id cliente_id : Nat) (monto_disponible : ℚ)
    (boletas_ids : List Nat) (saldo_usado : ℚ) : ResultadoAplicacion :=
  let r := aplicarLoop pago_id monto_disponible (boletasElegibles db boletas_ids)
  ⟨r.monto_aplicado_total, max 0 r.monto_restante, saldo_usado,
   r.boletas_afectadas, r.detalles, r.filas⟩

/-- The result dict of `registrar_pago` (models_pagos.py lines
200-205). -/
structure ResultadoRegistro where
  pago_id : Nat
  numero_pago : String
  estado : String
  resultado : ResultadoAplicacion
  deriving DecidableEq, Repr

/-- `registrar_pago` (models_pagos.py lines 127-211): create the
payment row (state `en_revision` when a proof is attached, `pendiente`
otherwise), run the allocation, store its totals on the payment, and
provisionally mark each affected pending bill `pagada = 1` with the
shared proof path. `numero_pago` (produced by `generar_numero_pago`
from the wall clock) and the current date `hoy` are inputs of the
model. -/
def registrar_pago (db : DB) (cliente_id : Nat) (monto_total : ℚ) (boletas_ids : List Nat)
    (comprobante_path : Option String) (metodo_pago : String) (usar_saldo : Bool)
    (fecha_pago : Option Nat) (notas : Option String) (numero_pago : String) (hoy : Nat) :
    ResultadoRegistro × DB :=
  let saldo_disponible := if usar_saldo then obtener_saldo_cliente db cliente_id else 0
  let monto_disponible := monto_total + saldo_disponible
  let estado := if comprobante_path.isSome then "en_revision" else "pendiente"
  let pago_id := db.next_pago_id
  let fila : Pago :=
    { id := pago_id, numero_pago := numero_pago, cliente_id := cliente_id,
      monto_total := monto_total, monto_aplicado := 0, monto_a_favor := 0,
      comprobante_path := comprobante_path, metodo_pago := metodo_pago, estado := estado,
      fecha_pago := fecha_pago.getD hoy, fecha_envio := hoy, fecha_procesamiento := none,
      procesado_por := none, motivo_rechazo := none, notas := notas }
  let db₁ := { db with pagos := db.pagos ++ [fila], next_pago_id := pago_id + 1 }
  let resultado :=
    _aplicar_pago_a_boletas db₁ pago_id cliente_id monto_disponible boletas_ids saldo_disponible
  let db₂ := { db₁ with pago_boletas := db₁.pago_boletas ++ resultado.filas }
  let pagos₁ := db₂.pagos.map (fun p =>
    if p.id == pago_id then
      { p with monto_aplicado := resultado.monto_aplicado,
               monto_a_favor := resultado.saldo_generado }
    else p)
  let db₃ := { db₂ with pagos := pagos₁ }
  let boletas₁ := resultado.boletas_afectadas.foldl
    (fun (bs : List Boleta) boleta_id => bs.map (fun b =>
      if b.id == boleta_id && b.pagada == 0 then
        { b with pagada := 1, comprobante_path := comprobante_path }
      else b)) db₃.boletas
  let db₄ := { db₃ with boletas := boletas₁ }
  (⟨pago_id, numero_pago, estado, resultado⟩, db₄)

/-- The per-bill UPDATE of `aprobar_pago` (models_pagos.py lines
305-322): commit one allocation against the bill's live balance; the
CASE expressions read the row's `saldo_pendiente` before this
statement. -/
def comprometerAplicacion (metodo : String) (hoy : Nat) (app : PagoBoleta) (b : Boleta) :
    Boleta :=
  if b.id == app.boleta_id then
    { b with monto_pagado := b.monto_pagado + app.monto_aplicado,
             saldo_pendiente := b.saldo_pendiente - app.monto_aplicado,
             pagada := if b.saldo_pendiente - app.monto_aplicado ≤ 0 then 2 else 0,
             fecha_pago := if b.saldo_pendiente - app.monto_aplicado ≤ 0 then some hoy
                           else b.fecha_pago,
             metodo_pago := some metodo }
  else b

/-- `aprobar_pago` (models_pagos.py lines 274-354): requires the
payment to be `en_revision` (otherwise reports failure and changes
nothing), commits every allocation row of the payment against its
bill, credits any `monto_a_favor` as a balance movement, and marks the
payment `aprobado`. -/
def aprobar_pago (db : DB) (pago_id : Nat) (usuario_id : Option Nat) (hoy : Nat) :
    Bool × String × DB :=
  match db.pagos.find? (fun p => p.id == pago_id && p.estado == "en_revision") with
  | none => (false, "Pago no encontrado o no está en revisión", db)
  | some pago =>
    let aplicaciones := db.pago_boletas.filter (fun pb => pb.pago_id == pago_id)
    let boletas₁ := aplicaciones.foldl
      (fun bs app => bs.map (comprometerAplicacion pago.metodo_pago hoy app)) db.boletas
    let db₁ := { db with boletas := boletas₁ }
    let db₂ :=
      if 0 < pago.monto_a_favor then
        (registrar_movimiento_saldo db₁ pago.cliente_id "ingreso" "excedente_pago"
          pago.monto_a_favor (some ("Excedente del pago " ++ pago.numero_pago))
          (some pago_id) none usuario_id).2
      else db₁
    let pagos₁ := db₂.pagos.map (fun p =>
      if p.id == pago_id then
        { p with estado := "aprobado", fecha_procesamiento := some hoy,
                 procesado_por := usuario_id }
      else p)
    (true, "Pago aprobado exitosamente", { db₂ with pagos := pagos₁ })

/-- The bill ids associated to a payment through `pago_boletas`
(models_pagos.py lines 383-386). -/
def boletasDePago (db : DB) (pago_id : Nat) : List Nat :=
  (db.pago_boletas.filter (fun pb => pb.pago_id == pago_id)).map (fun pb => pb.boleta_id)

/-- The `COUNT(*)` of the sibling-claim query of `rechazar_pago`
(models_pagos.py lines 391-396): allocation rows for the bill whose
payment is still `en_revision` and is not the payment being
rejected. -/
def otrosPagosEnRevision (db : DB) (pago_id boleta_id : Nat) : Nat :=
  ((db.pago_boletas.filter (fun pb => pb.boleta_id == boleta_id)).flatMap (fun pb =>
    db.pagos.filter (fun p =>
      p.id == pb.pago_id && p.estado == "en_revision" && !(p.id == pago_id)))).length

/-- `rechazar_pago` (models_pagos.py lines 357-422): requires the
payment to be `en_revision` (otherwise reports failure and changes
nothing); reverts each associated bill from `pagada = 1` back to `0`
and clears its proof path, but only when no other still-`en_revision`
payment claims that bill; finally marks the payment `rechazado` with
the reason. -/
def rechazar_pago (db : DB) (pago_id : Nat) (motivo : String) (usuario_id : Option Nat)
    (hoy : Nat) : Bool × String × DB :=
  match db.pagos.find? (fun p => p.id == pago_id && p.estado == "en_revision") with
  | none => (false, "Pago no encontrado o no está en revisión", db)
  | some _ =>
    let boletas₁ := (boletasDePago db pago_id).foldl
      (fun bs boleta_id =>
        if otrosPagosEnRevision db pago_id boleta_id == 0 then
          bs.map (fun b =>
            if b.id == boleta_id && b.pagada == 1 then
              { b with pagada := 0, comprobante_path := none }
            else b)
        else bs) db.boletas
    let pagos₁ := db.pagos.map (fun p =>
      if p.id == pago_id then
        { p with estado := "rechazado", fecha_procesamiento := some hoy,
                 procesado_por := usuario_id, motivo_rechazo := some motivo }
      else p)
    (true, "Pago rechazado", { db with boletas := boletas₁, pagos := pagos₁ })

/-- Python's `str.strip()`: drop whitespace from both ends, modelled
on the character list of the string. -/
def stripCadena (s : String) : String :=
  String.mk (((s.toList.dropWhile Char.isWhitespace).reverse.dropWhile
    Char.isWhitespace).reverse)

/-- The staff reject route `rechazar_pago_route`
(web/routes/boletas.py lines 1005-1024): strips the form's reason and
refuses to call `rechazar_pago` when it is empty. Returns whether a
rejection was performed and the resulting state. -/
def rechazar_pago_route (db : DB) (pago_id : Nat) (motivo_form : String)
    (usuario_id : Option Nat) (hoy : Nat) : Bool × DB :=
  let motivo := stripCadena motivo_form
  if motivo = "" then (false, db)
  else
    let r := rechazar_pago db pago_id motivo usuario_id hoy
    (r.1, r.2.2)

/-- `calcular_consumo` (models_boletas.py lines 277-282): consumption
is the difference of consecutive readings, the current reading itself
for a new meter, and never negative. -/
def calcular_consumo (lectura_actual : Int) (lectura_anterior : Option Int) : Int :=
  match lectura_anterior with
  | none => lectura_actual
  | some anterior => max 0 (lectura_actual - anterior)

/-- Lexicographic order on `(anio, mes, id)` keys, used by the
`ORDER BY ... DESC` queries of generacion_service.py. -/
def lexLe3 (a b : Int × Int × Nat) : Prop :=
  a.1 < b.1 ∨ (a.1 = b.1 ∧ (a.2.1 < b.2.1 ∨ (a.2.1 = b.2.1 ∧ a.2.2 ≤ b.2.2)))

instance : ∀ a b, Decidable (lexLe3 a b) := fun a b => by
  unfold lexLe3; infer_instance

/-- Descending order of readings: the
`ORDER BY año DESC, mes DESC, id DESC` of
`obtener_ultima_lectura_medidor` and
`obtener_ultimas_dos_lecturas_medidor` (generacion_service.py lines
77-81 and 102-108). -/
def lecturaDesc (a b : Lectura) : Prop :=
  lexLe3 (b.anio, b.mes, b.id) (a.anio, a.mes, a.id)

/-- Descending order of bills: the
`ORDER BY periodo_anio DESC, periodo_mes DESC, id DESC` of
`obtener_ultimo_consumo_boleta` (generacion_service.py lines
129-135). -/
def boletaDesc (a b : Boleta) : Prop :=
  lexLe3 (b.periodo_anio, b.periodo_mes, b.id) (a.periodo_anio, a.periodo_mes, a.id)

instance : DecidableRel lecturaDesc := fun a b => by
  unfold lecturaDesc; infer_instance

instance : DecidableRel boletaDesc := fun a b => by
  unfold boletaDesc; infer_instance

instance : IsTotal Lectura lecturaDesc := ⟨by intro a b; unfold lecturaDesc lexLe3; omega⟩

instance : IsTrans Lectura lecturaDesc := ⟨by intro a b c; unfold lecturaDesc lexLe3; omega⟩

instance : IsTotal Boleta boletaDesc := ⟨by intro a b; unfold boletaDesc lexLe3; omega⟩

instance : IsTrans Boleta boletaDesc := ⟨by intro a b c; unfold boletaDesc lexLe3; omega⟩

/-- The meter's readings, most recent first. -/
def lecturasMedidorDesc (db : DB) (medidor_id : Nat) : List Lectura :=
  List.insertionSort lecturaDesc (db.lecturas.filter (fun l => l.medidor_id == medidor_id))

/-- `obtener_ultima_lectura_medidor` (generacion_service.py lines
62-88). -/
def obtener_ultima_lectura_medidor (db : DB) (medidor_id : Nat) : Option Lectura :=
  (lecturasMedidorDesc db medidor_id).head?

/-- `obtener_ultimas_dos_lecturas_medidor` (generacion_service.py
lines 89-114). -/
def obtener_ultimas_dos_lecturas_medidor (db : DB) (medidor_id : Nat) : List Lectura :=
  (lecturasMedidorDesc db medidor_id).take 2

/-- `obtener_ultimo_consumo_boleta` (generacion_service.py lines
116-141). -/
def obtener_ultimo_consumo_boleta (db : DB) (medidor_id : Nat) : Option Int :=
  ((List.insertionSort boletaDesc
      (db.boletas.filter (fun b => b.medidor_id == medidor_id))).head?).map
    (fun b => b.consumo_m3)

/-- `calcular_consumo_estimado` (generacion_service.py lines 143-178):
the consumption of the most recent bill if any, else the delta of the
two most recent readings, else the single reading's value, else zero;
clamped to be non-negative. -/
def calcular_consumo_estimado (db : DB) (medidor_id : Nat) : Int :=
  let consumo :=
    match obtener_ultimo_consumo_boleta db medidor_id with
    | some c => c
    | none =>
      match obtener_ultimas_dos_lecturas_medidor db medidor_id with
      | l₀ :: l₁ :: _ => l₀.lectura_m3 - l₁.lectura_m3
      | [l₀] => l₀.lectura_m3
      | [] => 0
  max consumo 0

/-- `calcular_lectura_estimada` (generacion_service.py lines 181-206):
last reading value plus estimated consumption, `0` when the meter has
no reading. -/
def calcular_lectura_estimada (db : DB) (medidor_id : Nat) : Int :=
  match obtener_ultima_lectura_medidor db medidor_id with
  | none => 0
  | some ultima => ultima.lectura_m3 + calcular_consumo_estimado db medidor_id

/-! ### Lemmas about the allocation loop -/

theorem aplicarLoop_nonpos (pago_id : Nat) (m : ℚ) (bs : List Boleta) (h : m ≤ 0) :
    aplicarLoop pago_id m bs = ⟨[], m, 0, [], []⟩ := by
  cases bs with
  | nil => rfl
  | cons b resto => simp [aplicarLoop, h]

theorem aplicarLoop_conserva (pago_id : Nat) (bs : List Boleta) (m : ℚ) :
    (aplicarLoop pago_id m bs).monto_aplicado_total + (aplicarLoop pago_id m bs).monto_restante
      = m := by
  induction bs generalizing m with
  | nil => simp [aplicarLoop]
  | cons b resto ih =>
    by_cases h : m ≤ 0
    · simp [aplicarLoop, h]
    · simp only [aplicarLoop, if_neg h]
      have h₂ := ih (m - min m b.saldo_pendiente)
      linarith

theorem aplicarLoop_restante_nonneg (pago_id : Nat) (bs : List Boleta) (m : ℚ)
    (h : 0 ≤ m) : 0 ≤ (aplicarLoop pago_id m bs).monto_restante := by
  induction bs generalizing m with
  | nil => simpa [aplicarLoop]
  | cons b resto ih =>
    by_cases hm : m ≤ 0
    · simp [aplicarLoop, hm]; exact h
    · simp only [aplicarLoop, if_neg hm]
      exact ih _ (by have := min_le_left m b.saldo_pendiente; linarith)

/-- C1: Allocation conservation. For every database state, target list
and non-negative `monto` and `saldo` with `monto_disponible = monto +
saldo`, the allocation returns `monto_aplicado + saldo_generado =
monto + saldo`: no money is created or destroyed. -/
theorem conservacion_asignacion (db : DB) (pago_id cliente_id : Nat) (monto saldo : ℚ)
    (boletas_ids : List Nat) (hm : 0 ≤ monto) (hs : 0 ≤ saldo) :
    (_aplicar_pago_a_boletas db pago_id cliente_id (monto + saldo) boletas_ids
        saldo).monto_aplicado +
      (_aplicar_pago_a_boletas db pago_id cliente_id (monto + saldo) boletas_ids
        saldo).saldo_generado = monto + saldo := by
  unfold _aplicar_pago_a_boletas
  dsimp only
  rw [max_eq_right (aplicarLoop_restante_nonneg pago_id _ _ (by linarith))]
  exact aplicarLoop_conserva pago_id _ _

/-- Witness for C1 at a concrete input. -/
theorem conservacion_asignacion_witness :
    (0:ℚ) ≤ 10 ∧ (0:ℚ) ≤ 5 ∧
      (_aplicar_pago_a_boletas ⟨[], [], [], [], [], [], 1, 1⟩ 1 1 (10 + 5) [1]
          5).monto_aplicado +
        (_aplicar_pago_a_boletas ⟨[], [], [], [], [], [], 1, 1⟩ 1 1 (10 + 5) [1]
          5).saldo_generado = 10 + 5 :=
  ⟨by norm_num, by norm_num,
    conservacion_asignacion ⟨[], [], [], [], [], [], 1, 1⟩ 1 1 10 5 [1]
      (by norm_num) (by norm_num)⟩

/-- C8: Consumption computation. `calcular_consumo` returns the
current reading unchanged when no prior reading exists, otherwise
`max 0 (current - prior)`; in particular `calcular_consumo 80 (some
95) = 0`, and for a non-negative current reading the result is never
negative. -/
theorem consumo_recorte :
    (∀ c : Int, calcular_consumo c none = c) ∧
    (∀ c p : Int, calcular_consumo c (some p) = max 0 (c - p)) ∧
    calcular_consumo 80 (some 95) = 0 ∧
    (∀ (c : Int) (p : Option Int), 0 ≤ c → 0 ≤ calcular_consumo c p) := by
  refine ⟨fun c => rfl, fun c p => rfl, by decide, fun c p hc => ?_⟩
  cases p with
  | none => simpa [calcular_consumo]
  | some p => simp only [calcular_consumo]; omega

/-- Witness for C8 at a concrete input. -/
theorem consumo_recorte_witness :
    (0:Int) ≤ 80 ∧ 0 ≤ calcular_consumo 80 (some 95) :=
  ⟨by decide, consumo_recorte.2.2.2 80 (some 95) (by decide)⟩

/-! ### The processing order of the allocation -/

theorem mem_boletasElegibles (db : DB) (ids : List Nat) (b : Boleta) :
    b ∈ boletasElegibles db ids ↔ b ∈ db.boletas ∧ b.id ∈ ids ∧ 0 < b.saldo_pendiente := by
  unfold boletasElegibles
  rw [(List.perm_insertionSort periodoLe _).mem_iff, List.mem_filter]
  simp

theorem sorted_boletasElegibles (db : DB) (ids : List Nat) :
    List.Sorted periodoLe (boletasElegibles db ids) :=
  List.sorted_insertionSort periodoLe _

/-- Three one-meter bills of periods (2024,1), (2024,3), (2024,2),
each of total 10 and outstanding balance 10, stored out of period
order, and a database holding them. -/
def boletaEnero : Boleta := ⟨1, 1, 2024, 1, 0, 10, 0, 10, 0, none, none, none⟩

def boletaMarzo : Boleta := ⟨3, 1, 2024, 3, 0, 10, 0, 10, 0, none, none, none⟩

def boletaFebrero : Boleta := ⟨2, 1, 2024, 2, 0, 10, 0, 10, 0, none, none, none⟩

def dbPeriodos : DB := ⟨[boletaEnero, boletaMarzo, boletaFebrero], [], [], [], [], [], 1, 1⟩

/-- C2: Oldest-period-first greedy allocation. The allocation
processes exactly the target bills with positive outstanding balance,
in a list sorted by (period year, period month) ascending; on the
three bills of periods (2024,1), (2024,3), (2024,2), each outstanding
10, a payment of 15 applies 10 to bill 1 (period (2024,1)), 5 to
bill 2 (period (2024,2)) and nothing to bill 3 (period (2024,3)). -/
theorem asignacion_mas_antigua_primero :
    (∀ (db : DB) (ids : List Nat),
        List.Sorted periodoLe (boletasElegibles db ids) ∧
        ∀ b : Boleta, b ∈ boletasElegibles db ids ↔
          b ∈ db.boletas ∧ b.id ∈ ids ∧ 0 < b.saldo_pendiente) ∧
    (_aplicar_pago_a_boletas dbPeriodos 7 1 15 [1, 2, 3] 0).detalles =
        [⟨1, 10, true⟩, ⟨2, 5, false⟩] ∧
    (_aplicar_pago_a_boletas dbPeriodos 7 1 15 [1, 2, 3] 0).boletas_afectadas = [1, 2] := by
  refine ⟨fun db ids => ⟨sorted_boletasElegibles db ids, mem_boletasElegibles db ids⟩, ?_, ?_⟩ <;>
  norm_num [_aplicar_pago_a_boletas, boletasElegibles, aplicarLoop, periodoLe,
    boletaEnero, boletaFebrero, boletaMarzo, dbPeriodos,
    List.insertionSort, List.orderedInsert, List.filter]

/-- Witness for C2: the January bill is in the eligible list of the
concrete run. -/
theorem asignacion_mas_antigua_primero_witness :
    boletaEnero ∈ boletasElegibles dbPeriodos [1, 2, 3] :=
  ((asignacion_mas_antigua_primero.1 dbPeriodos [1, 2, 3]).2 boletaEnero).mpr
    ⟨by simp [dbPeriodos], by norm_num [boletaEnero], by norm_num [boletaEnero]⟩

/-! ### Shape of the persisted allocation rows -/

theorem aplicarLoop_filas_pos (pago_id : Nat) (bs : List Boleta)
    (hbs : ∀ b ∈ bs, 0 < b.saldo_pendiente) (m : ℚ) :
    ∀ f ∈ (aplicarLoop pago_id m bs).filas, 0 < f.monto_aplicado := by
  induction bs generalizing m with
  | nil => simp [aplicarLoop]
  | cons b resto ih =>
    by_cases hm : m ≤ 0
    · simp [aplicarLoop, hm]
    · simp only [aplicarLoop, if_neg hm]
      intro f hf
      rcases List.mem_cons.mp hf with h | h
      · subst h
        exact lt_min (not_le.mp hm) (hbs b (List.mem_cons_self b resto))
      · exact ih (fun x hx => hbs x (List.mem_cons_of_mem b hx)) _ f h

theorem aplicarLoop_incompleto_ultimo (pago_id : Nat) (bs : List Boleta) (m : ℚ) :
    ∀ f ∈ (aplicarLoop pago_id m bs).filas, f.es_pago_completo = false →
      (aplicarLoop pago_id m bs).filas.getLast? = some f := by
  induction bs generalizing m with
  | nil => simp [aplicarLoop]
  | cons b resto ih =>
    by_cases hm : m ≤ 0
    · simp [aplicarLoop, hm]
    · simp only [aplicarLoop, if_neg hm]
      intro f hf hfalse
      rcases List.mem_cons.mp hf with h | h
      · subst h
        simp only [decide_eq_false_iff_not, not_le] at hfalse
        have hmin : min m b.saldo_pendiente = m := by
          rcases min_cases m b.saldo_pendiente with ⟨h₁, _⟩ | ⟨h₁, h₂⟩
          · exact h₁
          · rw [h₁] at hfalse; exact absurd hfalse (lt_irrefl _)
        have hzero : m - min m b.saldo_pendiente ≤ 0 := by rw [hmin]; simp
        rw [aplicarLoop_nonpos pago_id _ resto hzero]
        rfl
      · have hlast := ih _ f h hfalse
        cases hrest : (aplicarLoop pago_id (m - min m b.saldo_pendiente) resto).filas with
        | nil => rw [hrest] at h; cases h
        | cons x xs =>
          rw [hrest] at hlast
          simpa [List.getLast?_cons_cons, hrest] using hlast

theorem aplicarLoop_incompleto_unico (pago_id : Nat) (bs : List Boleta) (m : ℚ) :
    ((aplicarLoop pago_id m bs).filas.filter (fun f => !f.es_pago_completo)).length ≤ 1 := by
  induction bs generalizing m with
  | nil => simp [aplicarLoop]
  | cons b resto ih =>
    by_cases hm : m ≤ 0
    · simp [aplicarLoop, hm]
    · simp only [aplicarLoop, if_neg hm]
      by_cases hc : b.saldo_pendiente ≤ min m b.saldo_pendiente
      · simpa [List.filter, hc] using ih (m - min m b.saldo_pendiente)
      · have hmin : min m b.saldo_pendiente = m := by
          rcases min_cases m b.saldo_pendiente with ⟨h₁, _⟩ | ⟨h₁, h₂⟩
          · exact h₁
          · exact absurd (le_of_eq h₁.symm) hc
        have hzero : m - min m b.saldo_pendiente ≤ 0 := by rw [hmin]; simp
        rw [aplicarLoop_nonpos pago_id _ resto hzero]
        simp [List.filter, hc]

/-- C10: Shape of the persisted allocation rows. In every allocation
run, each persisted `pago_boletas` row has a strictly positive applied
amount, at most one row is marked as not a full settlement, and such a
partial row can only be the row of the last bill processed. -/
theorem forma_filas_asignacion (db : DB) (pago_id cliente_id : Nat) (m : ℚ)
    (ids : List Nat) (saldo : ℚ) :
    (∀ f ∈ (_aplicar_pago_a_boletas db pago_id cliente_id m ids saldo).filas,
        0 < f.monto_aplicado) ∧
    ((_aplicar_pago_a_boletas db pago_id cliente_id m ids saldo).filas.filter
        (fun f => !f.es_pago_completo)).length ≤ 1 ∧
    (∀ f ∈ (_aplicar_pago_a_boletas db pago_id cliente_id m ids saldo).filas,
        f.es_pago_completo = false →
          (_aplicar_pago_a_boletas db pago_id cliente_id m ids saldo).filas.getLast? =
            some f) := by
  refine ⟨?_, ?_, ?_⟩
  · exact aplicarLoop_filas_pos pago_id _
      (fun b hb => ((mem_boletasElegibles db ids b).mp hb).2.2) m
  · exact aplicarLoop_incompleto_unico pago_id _ m
  · exact aplicarLoop_incompleto_ultimo pago_id _ m

/-- Witness for C10: in the concrete run over the three 2024 bills the
partial row (5 applied to bill 2) is the last persisted row. -/
theorem forma_filas_asignacion_witness :
    (⟨7, 2, 5, false⟩ : PagoBoleta) ∈
      (_aplicar_pago_a_boletas dbPeriodos 7 1 15 [1, 2, 3] 0).filas ∧
    (_aplicar_pago_a_boletas dbPeriodos 7 1 15 [1, 2, 3] 0).filas.getLast? =
      some ⟨7, 2, 5, false⟩ := by
  have hm : (⟨7, 2, 5, false⟩ : PagoBoleta) ∈
      (_aplicar_pago_a_boletas dbPeriodos 7 1 15 [1, 2, 3] 0).filas := by
    norm_num [_aplicar_pago_a_boletas, boletasElegibles, aplicarLoop, periodoLe,
      boletaEnero, boletaFebrero, boletaMarzo, dbPeriodos,
      List.insertionSort, List.orderedInsert, List.filter]
  exact ⟨hm, (forma_filas_asignacion dbPeriodos 7 1 15 [1, 2, 3] 0).2.2 _ hm rfl⟩

/-! ### Idempotence of the approve transition -/

theorem registrar_movimiento_saldo_pagos (db : DB) (c : Nat) (t o : String) (m : ℚ)
    (d : Option String) (p b u : Option Nat) :
    ((registrar_movimiento_saldo db c t o m d p b u).2).pagos = db.pagos := by
  unfold registrar_movimiento_saldo actualizar_saldo_cliente
  dsimp only
  split <;> rfl

theorem aprobar_pago_fail (db : DB) (pid : Nat) (uid : Option Nat) (hoy : Nat)
    (h : db.pagos.find? (fun p => p.id == pid && p.estado == "en_revision") = none) :
    aprobar_pago db pid uid hoy = (false, "Pago no encontrado o no está en revisión", db) := by
  unfold aprobar_pago
  rw [h]

theorem aprobar_pago_pagos_eq (db : DB) (pid : Nat) (uid : Option Nat) (hoy : Nat)
    (pago : Pago)
    (hfind : db.pagos.find? (fun p => p.id == pid && p.estado == "en_revision") = some pago) :
    (aprobar_pago db pid uid hoy).2.2.pagos =
      db.pagos.map (fun p =>
        if p.id == pid then
          { p with estado := "aprobado", fecha_procesamiento := some hoy,
                   procesado_por := uid }
        else p) := by
  unfold aprobar_pago
  rw [hfind]
  dsimp only
  split
  · rw [registrar_movimiento_saldo_pagos]
  · rfl

theorem find?_despues_de_aprobar (l : List Pago) (pid : Nat) (uid : Option Nat) (hoy : Nat) :
    (l.map (fun p =>
        if p.id == pid then
          { p with estado := "aprobado", fecha_procesamiento := some hoy,
                   procesado_por := uid }
        else p)).find? (fun p => p.id == pid && p.estado == "en_revision") = none := by
  rw [List.find?_eq_none]
  intro x hx
  rcases List.mem_map.mp hx with ⟨p, _, rfl⟩
  by_cases hid : p.id == pid <;> simp [hid]

/-- C3: Idempotent approve. Once a call to `aprobar_pago` has
succeeded, a second call on the same payment id reports the
invalid-state failure and returns the database unchanged: no bill is
credited twice and no balance movement is written twice. -/
theorem aprobar_pago_idempotente (db : DB) (pid : Nat) (uid uid₂ : Option Nat)
    (hoy hoy₂ : Nat) (h : (aprobar_pago db pid uid hoy).1 = true) :
    aprobar_pago (aprobar_pago db pid uid hoy).2.2 pid uid₂ hoy₂ =
      (false, "Pago no encontrado o no está en revisión",
        (aprobar_pago db pid uid hoy).2.2) := by
  cases hfind : db.pagos.find? (fun p => p.id == pid && p.estado == "en_revision") with
  | none =>
    exfalso
    rw [aprobar_pago_fail db pid uid hoy hfind] at h
    exact Bool.false_ne_true h
  | some pago =>
    refine aprobar_pago_fail _ pid uid₂ hoy₂ ?_
    rw [aprobar_pago_pagos_eq db pid uid hoy pago hfind]
    exact find?_despues_de_aprobar db.pagos pid uid hoy

/-- A concrete payment under review and a database holding it. -/
def pagoRevision : Pago :=
  ⟨1, "PAG-202501-0001", 1, 10, 10, 0, some "c.jpg", "transferencia", "en_revision",
   0, 0, none, none, none, none⟩

def dbAprobacion : DB := ⟨[], [pagoRevision], [], [], [], [], 2, 1⟩

/-- Witness for C3 at a concrete input. -/
theorem aprobar_pago_idempotente_witness :
    (aprobar_pago dbAprobacion 1 none 3).1 = true ∧
    aprobar_pago (aprobar_pago dbAprobacion 1 none 3).2.2 1 none 4 =
      (false, "Pago no encontrado o no está en revisión",
        (aprobar_pago dbAprobacion 1 none 3).2.2) :=
  ⟨by norm_num [aprobar_pago, dbAprobacion, pagoRevision],
    aprobar_pago_idempotente dbAprobacion 1 none none 3 4
      (by norm_num [aprobar_pago, dbAprobacion, pagoRevision])⟩

/-! ### Generic lemmas about the per-bill UPDATE folds -/

theorem foldl_map_por_elemento {α β : Type} (g : β → α → α) (l : List β) (bs : List α) :
    l.foldl (fun acc x => acc.map (g x)) bs =
      bs.map (fun a => l.foldl (fun a x => g x a) a) := by
  induction l generalizing bs with
  | nil => simp
  | cons x xs ih =>
    simp only [List.foldl_cons]
    rw [ih, List.map_map]
    rfl

theorem foldl_fijo {α β : Type} (step : β → α → α) (u : α) (l : List β)
    (hstay : ∀ x ∈ l, step x u = u) : l.foldl (fun a x => step x a) u = u := by
  induction l with
  | nil => rfl
  | cons x xs ih =>
    simp only [List.foldl_cons]
    rw [hstay x (List.mem_cons_self x xs)]
    exact ih (fun y hy => hstay y (List.mem_cons_of_mem x hy))

theorem foldl_opciones {α β : Type} (step : β → α → α) (b u : α) (l : List β)
    (hstep : ∀ x ∈ l, step x b = b ∨ step x b = u)
    (hstay : ∀ x ∈ l, step x u = u) :
    l.foldl (fun a x => step x a) b = b ∨ l.foldl (fun a x => step x a) b = u := by
  induction l with
  | nil => left; rfl
  | cons x xs ih =>
    simp only [List.foldl_cons]
    rcases hstep x (List.mem_cons_self x xs) with h | h
    · rw [h]
      exact ih (fun y hy => hstep y (List.mem_cons_of_mem x hy))
        (fun y hy => hstay y (List.mem_cons_of_mem x hy))
    · rw [h]
      right
      exact foldl_fijo step u xs (fun y hy => hstay y (List.mem_cons_of_mem x hy))

theorem foldl_alcanza {α β : Type} (step : β → α → α) (b u : α) (l : List β)
    (P : β → Prop)
    (htrig : ∀ x ∈ l, P x → step x b = u)
    (hskip : ∀ x ∈ l, ¬P x → step x b = b)
    (hstay : ∀ x ∈ l, step x u = u)
    (x₀ : β) (hx₀ : x₀ ∈ l) (hp : P x₀) :
    l.foldl (fun a x => step x a) b = u := by
  induction l with
  | nil => cases hx₀
  | cons y ys ih =>
    simp only [List.foldl_cons]
    by_cases hPy : P y
    · rw [htrig y (List.mem_cons_self y ys) hPy]
      exact foldl_fijo step u ys (fun z hz => hstay z (List.mem_cons_of_mem y hz))
    · rw [hskip y (List.mem_cons_self y ys) hPy]
      rcases List.mem_cons.mp hx₀ with rfl | hmem
      · exact absurd hp hPy
      · exact ih (fun z hz hPz => htrig z (List.mem_cons_of_mem y hz) hPz)
          (fun z hz hPz => hskip z (List.mem_cons_of_mem y hz) hPz)
          (fun z hz => hstay z (List.mem_cons_of_mem y hz)) hmem

/-! ### Submit is non-monetary -/

theorem exists_pago_anexado (pagos : List Pago) (fila : Pago) (pid : Nat) (m₁ m₂ : ℚ)
    (hid : fila.id = pid) (hfresh : ∀ p ∈ pagos, p.id ≠ pid) :
    ∃ pago : Pago,
      (pagos ++ [fila]).map (fun p =>
          if p.id == pid then { p with monto_aplicado := m₁, monto_a_favor := m₂ }
          else p) = pagos ++ [pago] ∧
      pago.id = pid ∧ pago.estado = fila.estado ∧
      pago.comprobante_path = fila.comprobante_path ∧
      pago.monto_aplicado = m₁ ∧ pago.monto_a_favor = m₂ := by
  refine ⟨{ fila with monto_aplicado := m₁, monto_a_favor := m₂ }, ?_, hid, rfl, rfl, rfl, rfl⟩
  rw [List.map_append]
  congr 1
  · calc pagos.map _ = pagos.map id := by
          refine List.map_congr_left (fun p hp => ?_)
          rw [if_neg (by simpa using hfresh p hp)]
          rfl
      _ = pagos := List.map_id _
  · simp [hid]

theorem marca_en_revision_puntual (ruta : String) (l : List Nat) (b : Boleta) :
    (l.foldl (fun a bid =>
        if a.id == bid && a.pagada == 0 then
          { a with pagada := 1, comprobante_path := some ruta }
        else a) b).monto_pagado = b.monto_pagado ∧
    (l.foldl (fun a bid =>
        if a.id == bid && a.pagada == 0 then
          { a with pagada := 1, comprobante_path := some ruta }
        else a) b).saldo_pendiente = b.saldo_pendiente ∧
    (l.foldl (fun a bid =>
        if a.id == bid && a.pagada == 0 then
          { a with pagada := 1, comprobante_path := some ruta }
        else a) b).total = b.total ∧
    (l.foldl (fun a bid =>
        if a.id == bid && a.pagada == 0 then
          { a with pagada := 1, comprobante_path := some ruta }
        else a) b = b ∨
     l.foldl (fun a bid =>
        if a.id == bid && a.pagada == 0 then
          { a with pagada := 1, comprobante_path := some ruta }
        else a) b = { b with pagada := 1, comprobante_path := some ruta }) ∧
    (b.pagada = 0 → b.id ∈ l →
      (l.foldl (fun a bid =>
          if a.id == bid && a.pagada == 0 then
            { a with pagada := 1, comprobante_path := some ruta }
          else a) b).pagada = 1 ∧
      (l.foldl (fun a bid =>
          if a.id == bid && a.pagada == 0 then
            { a with pagada := 1, comprobante_path := some ruta }
          else a) b).comprobante_path = some ruta) := by
  set g : Nat → Boleta → Boleta := fun bid a =>
    if a.id == bid && a.pagada == 0 then
      { a with pagada := 1, comprobante_path := some ruta }
    else a with hg
  have hfold : ∀ (b' : Boleta), l.foldl (fun a bid =>
      if a.id == bid && a.pagada == 0 then
        { a with pagada := 1, comprobante_path := some ruta }
      else a) b' = l.foldl (fun a x => g x a) b' := fun _ => rfl
  rw [hfold]
  have hstay : ∀ bid, g bid { b with pagada := 1, comprobante_path := some ruta } =
      { b with pagada := 1, comprobante_path := some ruta } := by
    intro bid
    rw [hg]
    simp
  have hstep : ∀ bid, g bid b = b ∨
      g bid b = { b with pagada := 1, comprobante_path := some ruta } := by
    intro bid
    rw [hg]
    dsimp only
    split
    · right; rfl
    · left; rfl
  have hopt := foldl_opciones g b { b with pagada := 1, comprobante_path := some ruta } l
    (fun x _ => hstep x) (fun x _ => hstay x)
  refine ⟨?_, ?_, ?_, hopt, ?_⟩
  · rcases hopt with h | h <;> rw [h]
  · rcases hopt with h | h <;> rw [h]
  · rcases hopt with h | h <;> rw [h]
  · intro hpend hmem
    rw [foldl_alcanza g b { b with pagada := 1, comprobante_path := some ruta } l
      (fun bid => bid = b.id)
      (fun x _ hx => by rw [hg]; simp [hx, hpend])
      (fun x _ hx => by
        rw [hg]
        exact if_neg (by
          simp only [Bool.and_eq_true, beq_iff_eq]
          rintro ⟨h, -⟩
          exact hx h.symm))
      (fun x _ => hstay x) b.id hmem rfl]
    exact ⟨rfl, rfl⟩

/-- C5: Submit is non-monetary. When a customer submission carries a
proof of payment, `registrar_pago` creates the payment in
`en_revision`, appends exactly the allocation rows, touches no balance
or movement row, and on the bills changes at most the cached state
flag (`pagada := 1`, only on previously pending affected bills) and
the shared proof reference, never `monto_pagado`, `saldo_pendiente`
or `total`. -/
theorem envio_no_monetario (db : DB) (cliente_id : Nat) (monto_total : ℚ)
    (ids : List Nat) (ruta metodo : String) (usar_saldo : Bool) (fecha : Option Nat)
    (notas : Option String) (num : String) (hoy : Nat) (r : ResultadoRegistro) (db' : DB)
    (hr : registrar_pago db cliente_id monto_total ids (some ruta) metodo usar_saldo
        fecha notas num hoy = (r, db'))
    (hfresh : ∀ p ∈ db.pagos, p.id ≠ db.next_pago_id) :
    r.estado = "en_revision" ∧
    db'.pago_boletas = db.pago_boletas ++ r.resultado.filas ∧
    db'.saldos_cliente = db.saldos_cliente ∧
    db'.movimientos_saldo = db.movimientos_saldo ∧
    (∃ pago : Pago, db'.pagos = db.pagos ++ [pago] ∧ pago.id = db.next_pago_id ∧
        pago.estado = "en_revision" ∧ pago.comprobante_path = some ruta ∧
        pago.monto_aplicado = r.resultado.monto_aplicado ∧
        pago.monto_a_favor = r.resultado.saldo_generado) ∧
    List.Forall₂ (fun b b' : Boleta =>
        b'.monto_pagado = b.monto_pagado ∧ b'.saldo_pendiente = b.saldo_pendiente ∧
        b'.total = b.total ∧
        (b' = b ∨ b' = { b with pagada := 1, comprobante_path := some ruta }) ∧
        (b.pagada = 0 → b.id ∈ r.resultado.boletas_afectadas →
          b'.pagada = 1 ∧ b'.comprobante_path = some ruta))
      db.boletas db'.boletas := by
  have h₁ := congrArg Prod.fst hr
  have h₂ := congrArg Prod.snd hr
  simp only [registrar_pago, Option.isSome_some, if_true] at h₁ h₂
  subst h₁
  subst h₂
  dsimp only
  refine ⟨rfl, rfl, rfl, rfl, ?_, ?_⟩
  · exact exists_pago_anexado db.pagos _ db.next_pago_id _ _ rfl hfresh
  · rw [foldl_map_por_elemento, List.forall₂_map_right_iff, List.forall₂_same]
    intro b _
    exact marca_en_revision_puntual ruta _ b

/-- A pending bill, an all-empty balance table and a database for the
submit witness. -/
def boletaPendiente : Boleta := ⟨1, 1, 2025, 6, 0, 30, 0, 30, 0, none, none, none⟩

def dbEnvio : DB := ⟨[boletaPendiente], [], [], [], [], [], 1, 1⟩

/-- Witness for C5 at a concrete input. -/
theorem envio_no_monetario_witness :
    (∀ p ∈ dbEnvio.pagos, p.id ≠ dbEnvio.next_pago_id) ∧
    ((registrar_pago dbEnvio 1 50 [1] (some "c.jpg") "transferencia" false none none
        "PAG-202506-0001" 9).1.estado = "en_revision" ∧
      (registrar_pago dbEnvio 1 50 [1] (some "c.jpg") "transferencia" false none none
        "PAG-202506-0001" 9).2.saldos_cliente = dbEnvio.saldos_cliente) := by
  have h := envio_no_monetario dbEnvio 1 50 [1] "c.jpg" "transferencia" false none none
    "PAG-202506-0001" 9
    (registrar_pago dbEnvio 1 50 [1] (some "c.jpg") "transferencia" false none none
      "PAG-202506-0001" 9).1
    (registrar_pago dbEnvio 1 50 [1] (some "c.jpg") "transferencia" false none none
      "PAG-202506-0001" 9).2
    rfl (by intro p hp; simp [dbEnvio] at hp)
  exact ⟨by intro p hp; simp [dbEnvio] at hp, h.1, h.2.2.1⟩

/-! ### Reject reverts provisional state only -/

theorem foldl_condicional_map {α β : Type} (cond : β → Bool) (g : β → α → α)
    (l : List β) (bs : List α) :
    l.foldl (fun acc x => if cond x then acc.map (g x) else acc) bs =
      l.foldl (fun acc x => acc.map (fun a => if cond x then g x a else a)) bs := by
  induction l generalizing bs with
  | nil => rfl
  | cons x xs ih =>
    simp only [List.foldl_cons]
    by_cases hc : cond x
    · simp only [hc, if_true]
      rw [ih]
    · simp only [hc, Bool.false_eq_true, if_false, List.map_id']
      rw [ih]

theorem rechazar_pago_fail (db : DB) (pid : Nat) (motivo : String) (uid : Option Nat)
    (hoy : Nat)
    (h : db.pagos.find? (fun p => p.id == pid && p.estado == "en_revision") = none) :
    rechazar_pago db pid motivo uid hoy =
      (false, "Pago no encontrado o no está en revisión", db) := by
  unfold rechazar_pago
  rw [h]

theorem revertir_puntual (db : DB) (pid : Nat) (l : List Nat) (b : Boleta) :
    (l.foldl (fun a bid =>
        if otrosPagosEnRevision db pid bid == 0 then
          (if a.id == bid && a.pagada == 1 then
            { a with pagada := 0, comprobante_path := none }
          else a)
        else a) b).monto_pagado = b.monto_pagado ∧
    (l.foldl (fun a bid =>
        if otrosPagosEnRevision db pid bid == 0 then
          (if a.id == bid && a.pagada == 1 then
            { a with pagada := 0, comprobante_path := none }
          else a)
        else a) b).saldo_pendiente = b.saldo_pendiente ∧
    (l.foldl (fun a bid =>
        if otrosPagosEnRevision db pid bid == 0 then
          (if a.id == bid && a.pagada == 1 then
            { a with pagada := 0, comprobante_path := none }
          else a)
        else a) b).total = b.total ∧
    (l.foldl (fun a bid =>
        if otrosPagosEnRevision db pid bid == 0 then
          (if a.id == bid && a.pagada == 1 then
            { a with pagada := 0, comprobante_path := none }
          else a)
        else a) b = b ∨
     l.foldl (fun a bid =>
        if otrosPagosEnRevision db pid bid == 0 then
          (if a.id == bid && a.pagada == 1 then
            { a with pagada := 0, comprobante_path := none }
          else a)
        else a) b = { b with pagada := 0, comprobante_path := none }) ∧
    (b.pagada = 1 → b.id ∈ l → otrosPagosEnRevision db pid b.id = 0 →
      (l.foldl (fun a bid =>
          if otrosPagosEnRevision db pid bid == 0 then
            (if a.id == bid && a.pagada == 1 then
              { a with pagada := 0, comprobante_path := none }
            else a)
          else a) b).pagada = 0 ∧
      (l.foldl (fun a bid =>
          if otrosPagosEnRevision db pid bid == 0 then
            (if a.id == bid && a.pagada == 1 then
              { a with pagada := 0, comprobante_path := none }
            else a)
          else a) b).comprobante_path = none) ∧
    (otrosPagosEnRevision db pid b.id ≠ 0 →
      l.foldl (fun a bid =>
          if otrosPagosEnRevision db pid bid == 0 then
            (if a.id == bid && a.pagada == 1 then
              { a with pagada := 0, comprobante_path := none }
            else a)
          else a) b = b) := by
  set g : Nat → Boleta → Boleta := fun bid a =>
    if otrosPagosEnRevision db pid bid == 0 then
      (if a.id == bid && a.pagada == 1 then
        { a with pagada := 0, comprobante_path := none }
      else a)
    else a with hg
  have hfold : ∀ (b' : Boleta), l.foldl (fun a bid =>
      if otrosPagosEnRevision db pid bid == 0 then
        (if a.id == bid && a.pagada == 1 then
          { a with pagada := 0, comprobante_path := none }
        else a)
      else a) b' = l.foldl (fun a x => g x a) b' := fun _ => rfl
  rw [hfold]
  have hstay : ∀ bid, g bid { b with pagada := 0, comprobante_path := none } =
      { b with pagada := 0, comprobante_path := none } := by
    intro bid
    rw [hg]
    dsimp only
    split
    · simp
    · rfl
  have hstep : ∀ bid, g bid b = b ∨
      g bid b = { b with pagada := 0, comprobante_path := none } := by
    intro bid
    rw [hg]
    dsimp only
    split
    · split
      · right; rfl
      · left; rfl
    · left; rfl
  have hopt := foldl_opciones g b { b with pagada := 0, comprobante_path := none } l
    (fun x _ => hstep x) (fun x _ => hstay x)
  refine ⟨?_, ?_, ?_, hopt, ?_, ?_⟩
  · rcases hopt with h | h <;> rw [h]
  · rcases hopt with h | h <;> rw [h]
  · rcases hopt with h | h <;> rw [h]
  · intro hrev hmem hotros
    rw [foldl_alcanza g b { b with pagada := 0, comprobante_path := none } l
      (fun bid => bid = b.id)
      (fun x _ hx => by rw [hg]; subst hx; simp [hotros, hrev])
      (fun x _ hx => by
        rw [hg]
        dsimp only
        split
        · exact if_neg (by
            simp only [Bool.and_eq_true, beq_iff_eq]
            rintro ⟨hxx, -⟩
            exact hx hxx.symm)
        · rfl)
      (fun x _ => hstay x) b.id hmem rfl]
    exact ⟨rfl, rfl⟩
  · intro hotros
    refine foldl_fijo g b l (fun x _ => ?_)
    rw [hg]
    dsimp only
    by_cases hx : x = b.id
    · subst hx
      rw [if_neg (by simpa using hotros)]
    · split
      · exact if_neg (by
          simp only [Bool.and_eq_true, beq_iff_eq]
          rintro ⟨hxx, -⟩
          exact hx hxx.symm)
      · rfl

/-- C4: Reject reverts provisional state only. When `rechazar_pago`
succeeds, the payment is marked `rechazado` with the reason, no
balance movement or balance row is created or changed, the allocation
rows are untouched, and each bill keeps its `monto_pagado`,
`saldo_pendiente` and `total`; a bill is reset to `pagada = 0` with
its proof reference cleared when it was `en_revision`, belongs to the
payment and no other still-`en_revision` payment claims it, and it is
left completely unchanged when a sibling claim exists. -/
theorem rechazo_revierte_solo_provisional (db : DB) (pid : Nat) (motivo : String)
    (uid : Option Nat) (hoy : Nat)
    (h : (rechazar_pago db pid motivo uid hoy).1 = true) :
    (rechazar_pago db pid motivo uid hoy).2.2.movimientos_saldo = db.movimientos_saldo ∧
    (rechazar_pago db pid motivo uid hoy).2.2.saldos_cliente = db.saldos_cliente ∧
    (rechazar_pago db pid motivo uid hoy).2.2.pago_boletas = db.pago_boletas ∧
    (∀ p ∈ (rechazar_pago db pid motivo uid hoy).2.2.pagos,
        p.id = pid → p.estado = "rechazado" ∧ p.motivo_rechazo = some motivo) ∧
    List.Forall₂ (fun b b' : Boleta =>
        b'.monto_pagado = b.monto_pagado ∧ b'.saldo_pendiente = b.saldo_pendiente ∧
        b'.total = b.total ∧
        (b' = b ∨ b' = { b with pagada := 0, comprobante_path := none }) ∧
        (b.pagada = 1 → b.id ∈ boletasDePago db pid →
          otrosPagosEnRevision db pid b.id = 0 →
          b'.pagada = 0 ∧ b'.comprobante_path = none) ∧
        (otrosPagosEnRevision db pid b.id ≠ 0 → b' = b))
      db.boletas (rechazar_pago db pid motivo uid hoy).2.2.boletas := by
  cases hfind : db.pagos.find? (fun p => p.id == pid && p.estado == "en_revision") with
  | none =>
    exfalso
    rw [rechazar_pago_fail db pid motivo uid hoy hfind] at h
    exact Bool.false_ne_true h
  | some pago =>
    unfold rechazar_pago
    rw [hfind]
    dsimp only
    refine ⟨rfl, rfl, rfl, ?_, ?_⟩
    · intro p' hp' hid
      rcases List.mem_map.mp hp' with ⟨p, _, rfl⟩
      by_cases hpid : p.id == pid
      · simp [hpid]
      · rw [if_neg hpid] at hid
        exact absurd hid (by simpa using hpid)
    · rw [foldl_condicional_map, foldl_map_por_elemento, List.forall₂_map_right_iff,
        List.forall₂_same]
      intro b _
      exact revertir_puntual db pid _ b

/-- A payment under review over two `en_revision` bills sharing one
proof, with no sibling claims. -/
def pagoRechazable : Pago :=
  ⟨1, "PAG-202502-0001", 1, 30, 30, 0, some "c.jpg", "transferencia", "en_revision",
   0, 0, none, none, none, none⟩

def boletaRevisadaA : Boleta := ⟨1, 1, 2025, 1, 0, 15, 0, 15, 1, some "c.jpg", none, none⟩

def boletaRevisadaB : Boleta := ⟨2, 1, 2025, 2, 0, 15, 0, 15, 1, some "c.jpg", none, none⟩

def dbRechazo : DB :=
  ⟨[boletaRevisadaA, boletaRevisadaB], [pagoRechazable],
   [⟨1, 1, 15, true⟩, ⟨1, 2, 15, true⟩], [], [], [], 2, 1⟩

/-- Witness for C4 at a concrete input. -/
theorem rechazo_revierte_solo_provisional_witness :
    (rechazar_pago dbRechazo 1 "comprobante ilegible" none 7).1 = true ∧
    (rechazar_pago dbRechazo 1 "comprobante ilegible" none 7).2.2.movimientos_saldo =
      dbRechazo.movimientos_saldo :=
  ⟨by norm_num [rechazar_pago, dbRechazo, pagoRechazable],
    (rechazo_revierte_solo_provisional dbRechazo 1 "comprobante ilegible" none 7
      (by norm_num [rechazar_pago, dbRechazo, pagoRechazable])).1⟩

/-! ### Empty eligible target list -/

/-- A database whose only bill is fully settled: no eligible target
remains. -/
def dbSinDeuda : DB :=
  ⟨[⟨1, 1, 2025, 3, 0, 20, 20, 0, 2, none, none, none⟩], [], [], [], [], [], 1, 1⟩

/-- C6 counterexample: with an empty eligible target list and a
positive amount (10), `_aplicar_pago_a_boletas` does not fail at all —
no `NoEligibleBillsError` exists anywhere in the code — it returns
normally with `monto_aplicado = 0` and the whole amount converted to
`saldo_generado`, and `registrar_pago` proceeds to create the payment
in `en_revision`. -/
theorem sin_elegibles_contraejemplo :
    boletasElegibles dbSinDeuda [1] = [] ∧
    (0:ℚ) < 10 ∧
    (_aplicar_pago_a_boletas dbSinDeuda 1 1 10 [1] 0).monto_aplicado = 0 ∧
    (_aplicar_pago_a_boletas dbSinDeuda 1 1 10 [1] 0).saldo_generado = 10 ∧
    (registrar_pago dbSinDeuda 1 10 [1] (some "c.jpg") "transferencia" false none none
        "PAG-202503-0001" 0).1.estado = "en_revision" := by
  refine ⟨?_, by norm_num, ?_, ?_, ?_⟩ <;>
  norm_num [_aplicar_pago_a_boletas, boletasElegibles, aplicarLoop, registrar_pago,
    dbSinDeuda, List.insertionSort, List.orderedInsert, List.filter]

/-- C6 (amended): when the eligible target list is empty and the
available amount is non-negative, the allocation applies nothing,
affects no bill and returns the full amount as generated credit. -/
theorem asignacion_sin_elegibles (db : DB) (pid cid : Nat) (m : ℚ) (ids : List Nat)
    (saldo : ℚ) (hvacio : boletasElegibles db ids = []) (hm : 0 ≤ m) :
    _aplicar_pago_a_boletas db pid cid m ids saldo = ⟨0, m, saldo, [], [], []⟩ := by
  unfold _aplicar_pago_a_boletas
  rw [hvacio]
  show (⟨(aplicarLoop pid m []).monto_aplicado_total, _, _, _, _, _⟩ : ResultadoAplicacion) = _
  simp only [aplicarLoop]
  rw [max_eq_right hm]

/-- Witness for the amended C6 at a concrete input. -/
theorem asignacion_sin_elegibles_witness :
    boletasElegibles dbSinDeuda [1] = [] ∧ (0:ℚ) ≤ 10 ∧
    _aplicar_pago_a_boletas dbSinDeuda 1 1 10 [1] 0 = ⟨0, 10, 0, [], [], []⟩ :=
  ⟨by norm_num [boletasElegibles, dbSinDeuda, List.insertionSort, List.filter],
   by norm_num,
   asignacion_sin_elegibles dbSinDeuda 1 1 10 [1] 0
     (by norm_num [boletasElegibles, dbSinDeuda, List.insertionSort, List.filter])
     (by norm_num)⟩

/-! ### Reject preconditions -/

/-- C7: Reject requires `en_revision` state and a non-empty reason.
`rechazar_pago` reports the invalid-state failure and changes nothing
whenever no payment with the given id is `en_revision`; and the staff
reject route refuses to proceed (returning the state unchanged)
whenever the stripped rejection reason is empty. -/
theorem rechazo_requiere_estado_y_motivo :
    (∀ (db : DB) (pid : Nat) (motivo : String) (uid : Option Nat) (hoy : Nat),
        (∀ p ∈ db.pagos, ¬(p.id = pid ∧ p.estado = "en_revision")) →
        rechazar_pago db pid motivo uid hoy =
          (false, "Pago no encontrado o no está en revisión", db)) ∧
    (∀ (db : DB) (pid : Nat) (motivo_form : String) (uid : Option Nat) (hoy : Nat),
        stripCadena motivo_form = "" →
        rechazar_pago_route db pid motivo_form uid hoy = (false, db)) := by
  constructor
  · intro db pid motivo uid hoy hnone
    refine rechazar_pago_fail db pid motivo uid hoy ?_
    rw [List.find?_eq_none]
    intro p hp
    simp only [Bool.and_eq_true, beq_iff_eq]
    exact fun hc => hnone p hp hc
  · intro db pid mf uid hoy htrim
    unfold rechazar_pago_route
    simp [htrim]

/-- Witness for C7 at concrete inputs: an empty payment table and a
whitespace-only reason. -/
theorem rechazo_requiere_estado_y_motivo_witness :
    (∀ p ∈ (⟨[], [], [], [], [], [], 1, 1⟩ : DB).pagos,
        ¬(p.id = 1 ∧ p.estado = "en_revision")) ∧
    rechazar_pago (⟨[], [], [], [], [], [], 1, 1⟩ : DB) 1 "ilegible" none 0 =
      (false, "Pago no encontrado o no está en revisión",
        (⟨[], [], [], [], [], [], 1, 1⟩ : DB)) ∧
    stripCadena "  " = "" ∧
    rechazar_pago_route (⟨[], [], [], [], [], [], 1, 1⟩ : DB) 1 "  " none 0 =
      (false, (⟨[], [], [], [], [], [], 1, 1⟩ : DB)) :=
  ⟨by simp,
   rechazo_requiere_estado_y_motivo.1 ⟨[], [], [], [], [], [], 1, 1⟩ 1 "ilegible" none 0
     (by simp),
   by decide,
   rechazo_requiere_estado_y_motivo.2 ⟨[], [], [], [], [], [], 1, 1⟩ 1 "  " none 0
     (by decide)⟩

/-! ### Estimation of a missing reading -/

theorem head_insertionSort_max {α : Type} (r : α → α → Prop) [DecidableRel r]
    [IsTotal α r] [IsTrans α r] (l : List α) (x : α)
    (h : (List.insertionSort r l).head? = some x) : x ∈ l ∧ ∀ y ∈ l, r x y := by
  have hperm := List.perm_insertionSort r l
  have hsorted := List.sorted_insertionSort r l
  cases hs : List.insertionSort r l with
  | nil => rw [hs] at h; cases h
  | cons a t =>
    rw [hs] at h hperm hsorted
    injection h with h
    subst h
    constructor
    · exact hperm.mem_iff.mp (List.mem_cons_self a t)
    · intro y hy
      have hy' : y ∈ a :: t := hperm.mem_iff.mpr hy
      rcases List.mem_cons.mp hy' with rfl | hyt
      · rcases IsTotal.total (r := r) y y with hr | hr <;> exact hr
      · exact (List.sorted_cons.mp hsorted).1 y hyt

theorem consumo_estimado_nonneg (db : DB) (mid : Nat) :
    0 ≤ calcular_consumo_estimado db mid := by
  unfold calcular_consumo_estimado
  exact le_max_right _ 0

/-- C9: Missing-reading estimation. The estimated reading is `0` when
the meter has no reading; otherwise it is the last (most recent by
(year, month, id)) reading's value plus the estimated consumption,
hence never below that value. The estimated consumption is
non-negative and chosen by priority: the consumption of the meter's
most recent bill when one exists, else the delta of the two most
recent readings, else the single reading's value, else zero, always
clamped at zero. -/
theorem estimacion_lectura_faltante (db : DB) (mid : Nat) :
    (obtener_ultima_lectura_medidor db mid = none →
        calcular_lectura_estimada db mid = 0) ∧
    (∀ ul, obtener_ultima_lectura_medidor db mid = some ul →
        ul ∈ db.lecturas ∧ ul.medidor_id = mid ∧
        (∀ l ∈ db.lecturas, l.medidor_id = mid → lecturaDesc ul l) ∧
        calcular_lectura_estimada db mid =
          ul.lectura_m3 + calcular_consumo_estimado db mid ∧
        ul.lectura_m3 ≤ calcular_lectura_estimada db mid) ∧
    0 ≤ calcular_consumo_estimado db mid ∧
    (∀ c, obtener_ultimo_consumo_boleta db mid = some c →
        calcular_consumo_estimado db mid = max c 0 ∧
        ∃ b, b ∈ db.boletas ∧ b.medidor_id = mid ∧ b.consumo_m3 = c ∧
          ∀ b' ∈ db.boletas, b'.medidor_id = mid → boletaDesc b b') ∧
    (obtener_ultimo_consumo_boleta db mid = none →
        (∀ l₀ l₁ resto,
            obtener_ultimas_dos_lecturas_medidor db mid = l₀ :: l₁ :: resto →
            calcular_consumo_estimado db mid =
              max (l₀.lectura_m3 - l₁.lectura_m3) 0) ∧
        (∀ l₀, obtener_ultimas_dos_lecturas_medidor db mid = [l₀] →
            calcular_consumo_estimado db mid = max l₀.lectura_m3 0) ∧
        (obtener_ultimas_dos_lecturas_medidor db mid = [] →
            calcular_consumo_estimado db mid = 0)) := by
  refine ⟨?_, ?_, consumo_estimado_nonneg db mid, ?_, ?_⟩
  · intro hnone
    unfold calcular_lectura_estimada
    rw [hnone]
  · intro ul hul
    unfold obtener_ultima_lectura_medidor lecturasMedidorDesc at hul
    obtain ⟨hmem, hall⟩ := head_insertionSort_max lecturaDesc _ ul hul
    have hmem' := List.mem_filter.mp hmem
    have hform : calcular_lectura_estimada db mid =
        ul.lectura_m3 + calcular_consumo_estimado db mid := by
      unfold calcular_lectura_estimada obtener_ultima_lectura_medidor lecturasMedidorDesc
      rw [hul]
    refine ⟨hmem'.1, by simpa using hmem'.2, ?_, hform, ?_⟩
    · intro l hl hlm
      exact hall l (List.mem_filter.mpr ⟨hl, by simpa using hlm⟩)
    · rw [hform]
      have := consumo_estimado_nonneg db mid
      omega
  · intro c hc
    constructor
    · unfold calcular_consumo_estimado
      rw [hc]
    · unfold obtener_ultimo_consumo_boleta at hc
      rw [Option.map_eq_some'] at hc
      obtain ⟨b, hb, hbc⟩ := hc
      obtain ⟨hbmem, hball⟩ := head_insertionSort_max boletaDesc _ b hb
      have hbmem' := List.mem_filter.mp hbmem
      exact ⟨b, hbmem'.1, by simpa using hbmem'.2, hbc, fun b' hb' hm' =>
        hball b' (List.mem_filter.mpr ⟨hb', by simpa using hm'⟩)⟩
  · intro hn
    refine ⟨?_, ?_, ?_⟩
    · intro l₀ l₁ resto heq
      unfold calcular_consumo_estimado
      rw [hn, heq]
    · intro l₀ heq
      unfold calcular_consumo_estimado
      rw [hn, heq]
    · intro heq
      unfold calcular_consumo_estimado
      rw [hn, heq]
      decide

/-- A meter with a single reading of 50 m3 and no bill. -/
def lecturaUnica : Lectura := ⟨1, 1, 50, 2025, 1⟩

def dbLecturas : DB := ⟨[], [], [], [], [], [lecturaUnica], 1, 1⟩

/-- Witness for C9 at a concrete input. -/
theorem estimacion_lectura_faltante_witness :
    obtener_ultima_lectura_medidor dbLecturas 1 = some lecturaUnica ∧
    lecturaUnica.lectura_m3 ≤ calcular_lectura_estimada dbLecturas 1 :=
  ⟨by decide,
   ((estimacion_lectura_faltante dbLecturas 1).2.1 lecturaUnica (by decide)).2.2.2.2⟩

end SistemaCobroAgua
